import Mathlib

/-!
Verification of the AI-response orchestration pipeline of the chordcode
repository (`src/services/chordAnalysisService-azure.ts`).

The source file contains two variants of the service separated by a document
separator: variant A (the one with `getEnhancedMockChordAnalysis`, lines
1-774) and variant B (lines 775-1236).  Definitions below carry an `A` or `B`
suffix when the two variants differ; definitions without a suffix are shared
verbatim between the variants.

JavaScript runtime values reachable in this code (parsed JSON plus
`undefined`) are modelled by `JVal`; property access, truthiness, the `||`
defaulting idiom and `Array.prototype.map` are modelled by `getProp`,
`JVal.truthy`, `jsOr` and `jsMapChords` with JavaScript semantics (property
access on `null`/`undefined` throws a `TypeError`, `.map` on a non-array
throws).  Exceptions are modelled with `Except String`.

The completion client `callAzureOpenAI` is modelled over an oracle
`Nat → Except String JVal` giving the outcome of each attempt (steps 1-5 of
one attempt: fetch, status check, content extraction, fence stripping, JSON
parse), and it records its observable side effects (network attempts, logged
warnings, back-off waits) as a list of `Event`s.
-/

/-- A JavaScript runtime value: parsed JSON values plus `undefined`.
Numbers are modelled as integers (every numeric literal in the source and in
its canned data is an integer). -/
inductive JVal where
  | undefined
  | null
  | bool (b : Bool)
  | num (n : Int)
  | str (s : String)
  | arr (elems : List JVal)
  | obj (fields : List (String × JVal))
deriving Repr

mutual

/-- Structural equality of `JVal`s (JavaScript `SameValueZero` restricted to
these constructors). -/
def JVal.beq : JVal → JVal → Bool
  | .undefined, .undefined => true
  | .null, .null => true
  | .bool a, .bool b => a == b
  | .num a, .num b => a == b
  | .str a, .str b => a == b
  | .arr xs, .arr ys => JVal.beqList xs ys
  | .obj xs, .obj ys => JVal.beqFields xs ys
  | _, _ => false

def JVal.beqList : List JVal → List JVal → Bool
  | [], [] => true
  | a :: as, b :: bs => JVal.beq a b && JVal.beqList as bs
  | _, _ => false

def JVal.beqFields : List (String × JVal) → List (String × JVal) → Bool
  | [], [] => true
  | (k1, v1) :: as, (k2, v2) :: bs => k1 == k2 && JVal.beq v1 v2 && JVal.beqFields as bs
  | _, _ => false

end

instance : BEq JVal := ⟨JVal.beq⟩

/-- JavaScript truthiness of a value. -/
def JVal.truthy : JVal → Bool
  | .undefined => false
  | .null => false
  | .bool b => b
  | .num n => n != 0
  | .str s => s != ""
  | .arr _ => true
  | .obj _ => true

/-- Is the value `null` or `undefined` (property access on it throws)? -/
def JVal.isNullish : JVal → Bool
  | .null => true
  | .undefined => true
  | _ => false

/-- Last-binding-wins lookup in an object's field list (JavaScript object
literals and `JSON.parse` both keep the last duplicate key); a missing key
reads as `undefined`. -/
def lookupLast (fs : List (String × JVal)) (k : String) : JVal :=
  match fs.foldl (fun acc p => if p.1 = k then some p.2 else acc) none with
  | some v => v
  | none => .undefined

/-- JavaScript property access `v[k]`: throws a `TypeError` on `null` and
`undefined`, reads the field of an object, and yields `undefined` on every
other value (none of the accessed names is a built-in property). -/
def getProp (v : JVal) (k : String) : Except String JVal :=
  match v with
  | .null => .error ("TypeError: Cannot read properties of null (reading " ++ k ++ ")")
  | .undefined => .error ("TypeError: Cannot read properties of undefined (reading " ++ k ++ ")")
  | .obj fs => .ok (lookupLast fs k)
  | _ => .ok .undefined

/-- Total property access, used only where the receiver is known truthy
(hence not nullish), where it agrees with `getProp`. -/
def getPropD (v : JVal) (k : String) : JVal :=
  match v with
  | .obj fs => lookupLast fs k
  | _ => .undefined

/-- The JavaScript defaulting idiom `a || b`. -/
def jsOr (a b : JVal) : JVal := if a.truthy then a else b

/-- Observable side effects of the pipeline: a network attempt (the `fetch`
of attempt `n`), the `console.warn` of a failed attempt, a back-off wait,
the not-configured `console.warn`, the variant-A `Alert.alert`, and a
`console.error` log. -/
inductive Event where
  | fetchAttempt (n : Nat)
  | warnAttempt (n : Nat)
  | wait (ms : Nat)
  | warnConfig
  | alertConfig
  | errorLog
deriving Repr, DecidableEq

/-- Is the event a `console.warn`? -/
def Event.isWarning : Event → Bool
  | .warnAttempt _ => true
  | .warnConfig => true
  | _ => false

/-- Models `throw lastError!`: the error thrown after the final attempt (reading an
unset `lastError` would give `undefined`, which is unreachable because the
loop body runs at least once). -/
def lastErrorValue : Option String → String
  | some e => e
  | none => "undefined"

/-- The retry loop of `callAzureOpenAI`
(`for (let attempt = 1; attempt <= maxRetries; attempt++)`), recursing on the
number of remaining loop iterations as fuel.  One iteration: issue the fetch
(steps 1-5 abstracted by `oracle attempt`); on success return the parsed
JSON; on failure log a warning and, when `attempt < maxRetries`, wait
`1000 * 2 ^ (attempt - 1)` milliseconds before the next iteration. -/
def callFrom (oracle : Nat → Except String JVal) (maxRetries : Nat) :
    Nat → Nat → Option String → List Event × Except String JVal
  | 0, _, lastError => ([], .error (lastErrorValue lastError))
  | fuel + 1, attempt, lastError =>
    if maxRetries < attempt then ([], .error (lastErrorValue lastError))
    else
      match oracle attempt with
      | .ok v => ([.fetchAttempt attempt], .ok v)
      | .error e =>
        let tail := callFrom oracle maxRetries fuel (attempt + 1) (some e)
        (Event.fetchAttempt attempt :: Event.warnAttempt attempt ::
          ((if attempt < maxRetries then [Event.wait (1000 * 2 ^ (attempt - 1))] else []) ++
            tail.1),
          tail.2)

/-- The function `callAzureOpenAI` (identical in both variants): up to `maxRetries = 3`
attempts, exponential back-off between attempts, and after the final
attempt's failure the last encountered error is thrown to the caller.
Returns the recorded events and the outcome. -/
def callAzureOpenAI (oracle : Nat → Except String JVal) : List Event × Except String JVal :=
  callFrom oracle 3 3 1 none

/-- Does `l` start with `pre`? (helper for `strIncludes`). -/
def startsWithChars : List Char → List Char → Bool
  | _, [] => true
  | [], _ :: _ => false
  | a :: as, b :: bs => a == b && startsWithChars as bs

/-- Does the character list contain `sub` as a contiguous run? -/
def charsInclude (sub : List Char) : List Char → Bool
  | [] => sub.isEmpty
  | c :: cs => startsWithChars (c :: cs) sub || charsInclude sub cs

/-- JavaScript `String.prototype.includes`. -/
def strIncludes (s sub : String) : Bool := charsInclude sub.data s.data

/-- JavaScript `String.prototype.toLowerCase` (character-wise lowering). -/
def jsToLowerCase (s : String) : String := ⟨s.data.map Char.toLower⟩

mutual

/-- JavaScript string coercion `String(v)` for the values reachable here. -/
def jsToString : JVal → String
  | .undefined => "undefined"
  | .null => "null"
  | .bool true => "true"
  | .bool false => "false"
  | .num n => toString n
  | .str s => s
  | .arr xs => jsJoinArr xs
  | .obj _ => "[object Object]"

/-- JavaScript `Array.prototype.toString`: elements joined with commas, `null` and
`undefined` elements rendered as the empty string. -/
def jsJoinArr : List JVal → String
  | [] => ""
  | [x] => if x.isNullish then "" else jsToString x
  | x :: rest => (if x.isNullish then "" else jsToString x) ++ "," ++ jsJoinArr rest

end

/-- UTF-8 encoding of one code point, as a list of byte values. -/
def utf8Bytes (c : Char) : List Nat :=
  let n := c.toNat
  if n < 0x80 then [n]
  else if n < 0x800 then [0xC0 + n / 0x40, 0x80 + n % 0x40]
  else if n < 0x10000 then [0xE0 + n / 0x1000, 0x80 + n / 0x40 % 0x40, 0x80 + n % 0x40]
  else [0xF0 + n / 0x40000, 0x80 + n / 0x1000 % 0x40, 0x80 + n / 0x40 % 0x40, 0x80 + n % 0x40]

/-- Upper-case hexadecimal digit. -/
def hexDigit (n : Nat) : Char :=
  if n < 10 then Char.ofNat (48 + n) else Char.ofNat (55 + n)

/-- Is the character left unescaped by `encodeURIComponent`?
(alphanumerics and `- _ . ! ~ * ' ( )`). -/
def uriUnreserved (c : Char) : Bool :=
  c.isAlphanum || c == '-' || c == '_' || c == '.' || c == '!' || c == '~' ||
    c == '*' || c == Char.ofNat 39 || c == '(' || c == ')'

/-- JavaScript `encodeURIComponent`: unreserved characters kept, every other
character percent-encoded byte-wise in UTF-8. -/
def encodeURIComponent (s : String) : String :=
  ⟨(s.data.map (fun c =>
      if uriUnreserved c then [c]
      else ((utf8Bytes c).map (fun b => ['%', hexDigit (b / 16), hexDigit (b % 16)])).flatten)).flatten⟩

/-- JavaScript `encodeURIComponent` applied to an arbitrary value (JavaScript coerces the
argument to a string first). -/
def encodeURIComponentJV (v : JVal) : String := encodeURIComponent (jsToString v)

/-- A search-result item as built by `searchSongs` (interface `SongInfo` in
`src/services/types`).  The model path copies the response's fields verbatim
(without validation), so every copied field is an arbitrary runtime value;
`thumbnail` and `url` are synthesized strings. -/
structure RawSongInfo where
  title : JVal
  artist : JVal
  duration : JVal
  thumbnail : String
  url : String
  album : JVal
  year : JVal
  genre : JVal
  popularity : JVal
  description : JVal
deriving Repr

/-- The per-item mapping of `searchSongs` over the model's response array
(identical in both variants): copy `title`/`artist`, default the duration
with `song.duration || 180`, synthesize `thumbnail`/`url` from the
URL-encoded artist and title, and copy the optional metadata fields. -/
def normalizeSearchItem (song : JVal) : Except String RawSongInfo := do
  let t ← getProp song "title"
  let a ← getProp song "artist"
  let d ← getProp song "duration"
  let al ← getProp song "album"
  let y ← getProp song "year"
  let g ← getProp song "genre"
  let p ← getProp song "popularity"
  let de ← getProp song "description"
  pure
    { title := t
      artist := a
      duration := jsOr d (.num 180)
      thumbnail := "https://via.placeholder.com/480x360/1e293b/white?text=" ++
        encodeURIComponentJV a ++ "+-+" ++ encodeURIComponentJV t
      url := "song://" ++ encodeURIComponentJV a ++ "-" ++ encodeURIComponentJV t
      album := al
      year := y
      genre := g
      popularity := p
      description := de }

/-- Variant A's in-memory fallback catalog (`mockSongs`, 5 entries). -/
def mockSongsA : List RawSongInfo :=
  [{ title := .str "Perfect", artist := .str "Ed Sheeran", duration := .num 263,
     thumbnail := "https://via.placeholder.com/480x360/1e293b/white?text=Ed+Sheeran+-+Perfect",
     url := "song://Ed-Sheeran-Perfect", album := .str "รท (Divide)", year := .num 2017,
     genre := .str "Pop", popularity := .str "Very High",
     description := .str "Romantic ballad, one of Ed Sheeran\x27s biggest hits" },
   { title := .str "Wonderwall", artist := .str "Oasis", duration := .num 258,
     thumbnail := "https://via.placeholder.com/480x360/1e293b/white?text=Oasis+-+Wonderwall",
     url := "song://Oasis-Wonderwall", album := .str "(What\x27s the Story) Morning Glory?",
     year := .num 1995, genre := .str "Rock", popularity := .str "Very High",
     description := .str "Classic British rock anthem, perfect for beginners" },
   { title := .str "Shape of You", artist := .str "Ed Sheeran", duration := .num 233,
     thumbnail := "https://via.placeholder.com/480x360/1e293b/white?text=Ed+Sheeran+-+Shape+of+You",
     url := "song://Ed-Sheeran-Shape-of-You", album := .str "รท (Divide)", year := .num 2017,
     genre := .str "Pop", popularity := .str "Very High",
     description := .str "Upbeat pop song with simple chord progression" },
   { title := .str "Let It Be", artist := .str "The Beatles", duration := .num 243,
     thumbnail := "https://via.placeholder.com/480x360/1e293b/white?text=The+Beatles+-+Let+It+Be",
     url := "song://The-Beatles-Let-It-Be", album := .str "Let It Be", year := .num 1970,
     genre := .str "Rock", popularity := .str "Very High",
     description := .str "Timeless classic with simple chord progression" },
   { title := .str "House of the Rising Sun", artist := .str "The Animals", duration := .num 272,
     thumbnail := "https://via.placeholder.com/480x360/1e293b/white?text=The+Animals+-+House+of+the+Rising+Sun",
     url := "song://The-Animals-House-of-the-Rising-Sun", album := .str "The Animals",
     year := .num 1964, genre := .str "Folk Rock", popularity := .str "High",
     description := .str "Classic fingerpicking song, great for intermediate players" }]

/-- Variant B's in-memory fallback catalog (`mockSongs`, 3 entries). -/
def mockSongsB : List RawSongInfo :=
  [{ title := .str "Perfect", artist := .str "Ed Sheeran", duration := .num 263,
     thumbnail := "https://via.placeholder.com/480x360/1e293b/white?text=Ed+Sheeran+-+Perfect",
     url := "song://Ed-Sheeran-Perfect", album := .str "÷ (Divide)", year := .num 2017,
     genre := .str "Pop", popularity := .str "Very High",
     description := .str "Romantic ballad, one of Ed Sheeran\x27s biggest hits" },
   { title := .str "Wonderwall", artist := .str "Oasis", duration := .num 258,
     thumbnail := "https://via.placeholder.com/480x360/1e293b/white?text=Oasis+-+Wonderwall",
     url := "song://Oasis-Wonderwall", album := .str "(What\x27s the Story) Morning Glory?",
     year := .num 1995, genre := .str "Rock", popularity := .str "Very High",
     description := .str "Classic British rock anthem, perfect for beginners" },
   { title := .str "Shape of You", artist := .str "Ed Sheeran", duration := .num 233,
     thumbnail := "https://via.placeholder.com/480x360/1e293b/white?text=Ed+Sheeran+-+Shape+of+You",
     url := "song://Ed-Sheeran-Shape-of-You", album := .str "÷ (Divide)", year := .num 2017,
     genre := .str "Pop", popularity := .str "Very High",
     description := .str "Upbeat pop song with simple chord progression" }]

/-- The test `field.toLowerCase().includes(queryLower)` applied to a catalog field:
matches only when the field is a string (variant A reads `genre` through
optional chaining, so a missing genre simply does not match). -/
def jvIncludes (v : JVal) (queryLower : String) : Bool :=
  match v with
  | .str t => strIncludes (jsToLowerCase t) queryLower
  | _ => false

/-- Variant A's `getMockSongSearchResults`: case-insensitive substring filter
on title, artist or genre; when nothing matches, the catalog's first 3
entries. -/
def getMockSongSearchResultsA (query : String) : List RawSongInfo :=
  let ql := jsToLowerCase query
  let filtered := mockSongsA.filter
    (fun s => jvIncludes s.title ql || jvIncludes s.artist ql || jvIncludes s.genre ql)
  if 0 < filtered.length then filtered else mockSongsA.take 3

/-- Variant B's `getMockSongSearchResults`: case-insensitive substring filter
on title or artist only (no genre clause); when nothing matches, the
catalog's first 3 entries. -/
def getMockSongSearchResultsB (query : String) : List RawSongInfo :=
  let ql := jsToLowerCase query
  let filtered := mockSongsB.filter
    (fun s => jvIncludes s.title ql || jvIncludes s.artist ql)
  if 0 < filtered.length then filtered else mockSongsB.take 3

/-- The search fallback as the spec words it (§4.4): filter the catalog by
case-insensitive substring match of the query against `title`, `artist`, or
`genre`; if zero matches, return the first 3 catalog entries.  Stated from
the spec's words only, to be compared with the source definitions. -/
def specSearchFallback (catalog : List RawSongInfo) (query : String) : List RawSongInfo :=
  let ql := jsToLowerCase query
  let matched := catalog.filter
    (fun s => jvIncludes s.title ql || jvIncludes s.artist ql || jvIncludes s.genre ql)
  if matched.isEmpty then catalog.take 3 else matched

/-- Is the configured API key left at its placeholder default?
(`!AZURE_OPENAI_API_KEY || AZURE_OPENAI_API_KEY === "YOUR_AZURE_OPENAI_API_KEY"`:
the key is unset, empty, or the placeholder literal). -/
def notConfigured (apiKey : Option String) : Bool :=
  match apiKey with
  | none => true
  | some k => k == "" || k == "YOUR_AZURE_OPENAI_API_KEY"

/-- How a `searchSongs` call resolves: with a list of candidates, with no
value at all (`undefined`), or by raising. -/
inductive SearchOutcome where
  | value (songs : List RawSongInfo)
  | undefinedResult
  | thrown (e : String)
deriving Repr

/-- The `try` body of variant A's `searchSongs`: warn (and alert) when the
key is not configured but continue anyway, call the completion client, and
when the response is an array map every item through `normalizeSearchItem`
and return the list.  A non-array response falls off the end of the body
(`.ok none` models the implicit `undefined` return); any exception
propagates as `.error`. -/
def searchSongsBodyA (apiKey : Option String) (oracle : Nat → Except String JVal) :
    List Event × Except String (Option (List RawSongInfo)) :=
  let configEvents := if notConfigured apiKey then [Event.warnConfig, Event.alertConfig] else []
  let call := callAzureOpenAI oracle
  match call.2 with
  | .error e => (configEvents ++ call.1, .error e)
  | .ok response =>
    -- `if (response && Array.isArray(response))`: arrays are always truthy,
    -- so the guard holds exactly when the response is an array.
    match response with
    | .arr items =>
      match items.mapM normalizeSearchItem with
      | .ok songs => (configEvents ++ call.1, .ok (some songs))
      | .error e => (configEvents ++ call.1, .error e)
    | _ => (configEvents ++ call.1, .ok none)

/-- Variant A's `searchSongs`: the `try` body wrapped in the catch-all that
logs the error and returns the fallback results. -/
def searchSongsA (query : String) (apiKey : Option String)
    (oracle : Nat → Except String JVal) : List Event × SearchOutcome :=
  match (searchSongsBodyA apiKey oracle).2 with
  | .ok (some songs) => ((searchSongsBodyA apiKey oracle).1, .value songs)
  | .ok none => ((searchSongsBodyA apiKey oracle).1, .undefinedResult)
  | .error _ =>
    ((searchSongsBodyA apiKey oracle).1 ++ [Event.errorLog],
      .value (getMockSongSearchResultsA query))

/-- Variant B's `searchSongs`: an unconfigured key short-circuits to the
fallback with a single warning and no call; otherwise the completion client
is called and a non-array or failing response throws, with the catch-all
logging the error and returning the fallback. -/
def searchSongsB (query : String) (apiKey : Option String)
    (oracle : Nat → Except String JVal) : List Event × SearchOutcome :=
  if notConfigured apiKey then
    ([Event.warnConfig], .value (getMockSongSearchResultsB query))
  else
    let call := callAzureOpenAI oracle
    match call.2 with
    | .error _ => (call.1 ++ [Event.errorLog], .value (getMockSongSearchResultsB query))
    | .ok response =>
      match response with
      | .arr items =>
        match items.mapM normalizeSearchItem with
        | .ok songs => (call.1, .value songs)
        | .error _ => (call.1 ++ [Event.errorLog], .value (getMockSongSearchResultsB query))
      | _ =>
        -- `throw new Error("No valid response from Azure OpenAI")`, caught below
        (call.1 ++ [Event.errorLog], .value (getMockSongSearchResultsB query))

/-- The duration of a successfully built search item (`none` when the item
mapping threw). -/
def resultDuration (r : Except String RawSongInfo) : Option JVal :=
  match r with
  | .ok s => some s.duration
  | .error _ => none

/-- The duration rule as the spec words it: the item's duration when present
and positive, 180 otherwise.  Stated from the spec's words only, to be
compared with the source behaviour. -/
def specDurationRule (v : JVal) : JVal :=
  match v with
  | .num d => if 0 < d then .num d else .num 180
  | _ => .num 180

/-- Does the candidate have a non-empty string title and artist? -/
def nonEmptyTitleArtist (s : RawSongInfo) : Bool :=
  (match s.title with | .str t => t != "" | _ => false) &&
    (match s.artist with | .str a => a != "" | _ => false)

/-- The fields of a selected song that the analysis pipeline reads
(`songInfo.title` and `songInfo.artist`; the other `SongInfo` fields are
never consulted past search). -/
structure SongInfo where
  title : String
  artist : String

/-- A normalized chord event (`sectionName` models the source field
`section`, a Lean keyword).  Each field holds whatever runtime value the
`||`-defaulting produced. -/
structure NormChord where
  time : JVal
  chord : JVal
  duration : JVal
  lyricLine : JVal
  sectionName : JVal
deriving Repr

/-- A normalized chord analysis (`Omit<ChordAnalysisResult, "songInfo">`):
the mapped chord array plus the `||`-defaulted scalar fields;
`alternativeCapo` is copied without a default. -/
structure ChordAnalysisNorm where
  chords : List NormChord
  key : JVal
  tempo : JVal
  difficulty : JVal
  capo : JVal
  tuning : JVal
  strummingPattern : JVal
  timeSignature : JVal
  sections : JVal
  songStructure : JVal
  alternativeCapo : JVal
deriving Repr

/-- The per-element mapping inside `chords.map(...)`: each field defaulted
with `||` (a `null` element makes the property reads throw, as in
JavaScript). -/
def normalizeChordItem (c : JVal) : Except String NormChord := do
  let t ← getProp c "time"
  let ch ← getProp c "chord"
  let d ← getProp c "duration"
  let l ← getProp c "lyricLine"
  let s ← getProp c "section"
  pure
    { time := jsOr t (.num 0)
      chord := jsOr ch (.str "C")
      duration := jsOr d (.num 4)
      lyricLine := jsOr l (.str "")
      sectionName := jsOr s (.str "verse") }

/-- Models `chords.map(...)`: maps over an array; calling `.map` on any non-array
value throws a `TypeError` (only arrays reach here truthy, since the falsy
values were already replaced by `[]`). -/
def jsMapChords (v : JVal) : Except String (List NormChord) :=
  match v with
  | .arr xs => xs.mapM normalizeChordItem
  | _ => .error "TypeError: chords.map is not a function"

/-- The response-shape validation of `analyzeChordsWithAzureAI` (the block
after `if (response)`): `const chords = response.chords || []`, the chord
array mapped element-wise, and every scalar field defaulted with `||`. -/
def normalizeChordAnalysis (response : JVal) : Except String ChordAnalysisNorm := do
  let chordsField ← getProp response "chords"
  let chords ← jsMapChords (jsOr chordsField (.arr []))
  let keyF ← getProp response "key"
  let tempoF ← getProp response "tempo"
  let diffF ← getProp response "difficulty"
  let capoF ← getProp response "capo"
  let tuningF ← getProp response "tuning"
  let strumF ← getProp response "strummingPattern"
  let sigF ← getProp response "timeSignature"
  let sectionsF ← getProp response "sections"
  let structF ← getProp response "songStructure"
  let altF ← getProp response "alternativeCapo"
  pure
    { chords := chords
      key := jsOr keyF (.str "C Major")
      tempo := jsOr tempoF (.num 120)
      difficulty := jsOr diffF (.str "Beginner")
      capo := jsOr capoF (.num 0)
      tuning := jsOr tuningF (.str "Standard (E-A-D-G-B-E)")
      strummingPattern := jsOr strumF (.str "D-D-U-U-D-U")
      timeSignature := jsOr sigF (.str "4/4")
      sections := jsOr sectionsF
        (.obj [("verse", .arr [.str "C", .str "G", .str "Am", .str "F"])])
      songStructure := jsOr structF (.arr [.str "verse", .str "chorus"])
      alternativeCapo := altF }

/-- Literal chord event of the hand-authored progressions. -/
def mkChord (t : Int) (c : String) (d : Int) (l : String) (s : String) : NormChord :=
  { time := .num t, chord := .str c, duration := .num d, lyricLine := .str l,
    sectionName := .str s }

/-- The object `commonProgressions.perfect` of variant A's
`getEnhancedMockChordAnalysis` (the object carries no `songStructure` or
`alternativeCapo` property, so those fields read as `undefined`). -/
def perfectProgression : ChordAnalysisNorm :=
  { chords :=
      [mkChord 0 "G" 8 "I found a love for me" "verse",
       mkChord 8 "Em" 8 "Darling, just dive right in" "verse",
       mkChord 16 "C" 8 "Well, I found a girl beautiful and sweet" "verse",
       mkChord 24 "D" 8 "I never knew you were the someone waiting for me" "verse",
       mkChord 32 "Em" 4 "Baby, I\x27m dancing in the dark" "chorus",
       mkChord 36 "C" 4 "with you between my arms" "chorus",
       mkChord 40 "G" 4 "Barefoot on the grass" "chorus",
       mkChord 44 "D" 4 "listening to our favourite song" "chorus"]
    key := .str "G Major"
    tempo := .num 63
    difficulty := .str "Beginner"
    capo := .num 0
    tuning := .str "Standard (E-A-D-G-B-E)"
    strummingPattern := .str "D-D-U-U-D-U"
    timeSignature := .str "4/4"
    sections := .obj
      [("verse", .arr [.str "G", .str "Em", .str "C", .str "D"]),
       ("chorus", .arr [.str "Em", .str "C", .str "G", .str "D"])]
    songStructure := .undefined
    alternativeCapo := .undefined }

/-- The object `commonProgressions.wonderwall` of variant A's
`getEnhancedMockChordAnalysis`. -/
def wonderwallProgression : ChordAnalysisNorm :=
  { chords :=
      [mkChord 0 "Em7" 4 "Today is gonna be the day" "verse",
       mkChord 4 "G" 4 "that they\x27re gonna throw it back to you" "verse",
       mkChord 8 "D" 4 "By now you should\x27ve somehow" "verse",
       mkChord 12 "C" 4 "realized what you gotta do" "verse"]
    key := .str "G Major"
    tempo := .num 87
    difficulty := .str "Beginner"
    capo := .num 0
    tuning := .str "Standard (E-A-D-G-B-E)"
    strummingPattern := .str "D-D-U-U-D-U"
    timeSignature := .str "4/4"
    sections := .obj
      [("verse", .arr [.str "Em7", .str "G", .str "D", .str "C"]),
       ("chorus", .arr [.str "C", .str "D", .str "G", .str "Em"])]
    songStructure := .undefined
    alternativeCapo := .undefined }

/-- The generic default progression in C Major returned by variant A's
`getEnhancedMockChordAnalysis` when no keyword matches. -/
def defaultProgression : ChordAnalysisNorm :=
  { chords :=
      [mkChord 0 "C" 4 "First line of the song" "verse",
       mkChord 4 "G" 4 "Second line continues" "verse",
       mkChord 8 "Am" 4 "Third line with emotion" "verse",
       mkChord 12 "F" 4 "Fourth line completes the thought" "verse"]
    key := .str "C Major"
    tempo := .num 120
    difficulty := .str "Beginner"
    capo := .num 0
    tuning := .str "Standard (E-A-D-G-B-E)"
    strummingPattern := .str "D-D-U-U-D-U"
    timeSignature := .str "4/4"
    sections := .obj
      [("verse", .arr [.str "C", .str "G", .str "Am", .str "F"]),
       ("chorus", .arr [.str "F", .str "C", .str "G", .str "Am"])]
    songStructure := .undefined
    alternativeCapo := .undefined }

/-- Variant A's `getEnhancedMockChordAnalysis`: lower-case the song title and
pick the first key of `commonProgressions` (insertion order: `perfect`,
`wonderwall`) contained in it, else the default progression. -/
def getEnhancedMockChordAnalysis (songInfo : SongInfo) : ChordAnalysisNorm :=
  let songKey := jsToLowerCase songInfo.title
  if strIncludes songKey "perfect" then perfectProgression
  else if strIncludes songKey "wonderwall" then wonderwallProgression
  else defaultProgression

/-- A normalized guitar tutorial: every field holds the runtime value the
`||`-defaulting produced (steps, diagrams and tips are kept as raw values,
exactly as the source copies them without per-element mapping). -/
structure TutorialNorm where
  overview : JVal
  difficulty : JVal
  estimatedTime : JVal
  requirements : JVal
  chordDiagrams : JVal
  steps : JVal
  practiceNotes : JVal
  playingTips : JVal
  performanceTips : JVal
deriving Repr

/-- The response mapping of `generateTutorialWithAzureAI` (the block after
`if (response)`; the receiver is truthy there, so plain field reads cannot
throw and `getPropD` is exact). -/
def normalizeTutorial (s : SongInfo) (ca : ChordAnalysisNorm) (response : JVal) : TutorialNorm :=
  { overview := jsOr (getPropD response "overview")
      (.str ("Learn to play \"" ++ s.title ++ "\" by " ++ s.artist))
    difficulty := jsOr (getPropD response "difficulty") ca.difficulty
    estimatedTime := jsOr (getPropD response "estimatedTime") (.num 45)
    requirements := jsOr (getPropD response "requirements") (.arr [.str "Basic chord knowledge"])
    chordDiagrams := jsOr (getPropD response "chordDiagrams") (.obj [])
    steps := jsOr (getPropD response "steps") (.arr [])
    practiceNotes := jsOr (getPropD response "practiceNotes") (.arr [.str "Practice regularly"])
    playingTips := jsOr (getPropD response "playingTips") (.obj [])
    performanceTips := jsOr (getPropD response "performanceTips") (.arr [.str "Have fun!"]) }

/-- JavaScript `new Set(...)` insertion-order deduplication (helper). -/
def dedupGo (seen : List JVal) : List JVal → List JVal
  | [] => []
  | x :: xs =>
    if seen.any (fun y => JVal.beq y x) then dedupGo seen xs
    else x :: dedupGo (x :: seen) xs

/-- Models `[...new Set(chordAnalysis.chords.map(c => c.chord))]`. -/
def dedupJV (l : List JVal) : List JVal := dedupGo [] l

/-- A `.toLowerCase()` method call on an arbitrary runtime value: succeeds
only on strings, throws a `TypeError` otherwise. -/
def jsCallToLowerCase : JVal → Except String String
  | .str s => .ok (jsToLowerCase s)
  | _ => .error "TypeError: toLowerCase is not a function"

/-- Variant A's `getEnhancedMockTutorial`: the hand-authored six-step
tutorial, parameterized by the song and the chord analysis it elaborates
(`chordAnalysis.difficulty.toLowerCase()` throws when the difficulty is not
a string, which the caller does not catch). -/
def getEnhancedMockTutorial (s : SongInfo) (ca : ChordAnalysisNorm) :
    Except String TutorialNorm := do
  let uniqueChords := dedupJV (ca.chords.map (fun c => c.chord))
  let diffLower ← jsCallToLowerCase ca.difficulty
  pure
    { overview := .str ("\"" ++ s.title ++ "\" by " ++ s.artist ++
        " is an excellent song for guitar players. This song is in the key of " ++
        jsToString ca.key ++ " and features " ++ toString uniqueChords.length ++
        " main chords. With a tempo of " ++ jsToString ca.tempo ++
        " BPM, it\x27s perfect for " ++ diffLower ++
        " level players to practice chord transitions and develop their strumming technique.")
      difficulty := ca.difficulty
      estimatedTime := .num 45
      requirements := .arr [.str "Basic chord knowledge", .str "Comfortable with chord changes"]
      chordDiagrams := .obj
        [("G", .str "e|---3---|\\nB|---0---|\\nG|---0---|\\nD|---0---|\\nA|---2---|\\nE|---3---|"),
         ("Em", .str "e|---0---|\\nB|---0---|\\nG|---0---|\\nD|---2---|\\nA|---2---|\\nE|---0---|"),
         ("C", .str "e|---0---|\\nB|---1---|\\nG|---0---|\\nD|---2---|\\nA|---3---|\\nE|-------|"),
         ("D", .str "e|---2---|\\nB|---3---|\\nG|---2---|\\nD|---0---|\\nA|-------|\\nE|-------|"),
         ("Am", .str "e|---0---|\\nB|---1---|\\nG|---2---|\\nD|---2---|\\nA|---0---|\\nE|-------|"),
         ("F", .str "e|---1---|\\nB|---1---|\\nG|---2---|\\nD|---3---|\\nA|---3---|\\nE|---1---|")]
      steps := .arr
        [.obj
          [("step", .num 1), ("title", .str "Master Individual Chord Shapes"),
           ("description", .str "Learn to form each chord cleanly and hold it for at least 10 seconds without buzzing or muted strings."),
           ("chords", .arr uniqueChords),
           ("techniques", .arr [.str "Open chords", .str "Finger placement", .str "Clean fretting"]),
           ("tips", .arr
             [.str "Keep your thumb positioned behind the neck for support",
              .str "Press strings just hard enough to get clear notes",
              .str "Practice forming each chord from scratch 10 times",
              .str "Check that each string rings clearly by plucking individually"]),
           ("practiceTime", .num 15),
           ("commonMistakes", .arr
             [.str "Muted strings", .str "Buzzing frets", .str "Incorrect finger placement"])],
         .obj
          [("step", .num 2), ("title", .str "Practice Chord Transitions"),
           ("description", .str "Work on smooth transitions between chord pairs, focusing on efficient finger movements."),
           ("chords", .arr (uniqueChords.take 2)),
           ("techniques", .arr [.str "Chord transitions", .str "Finger economy", .str "Pivot fingers"]),
           ("tips", .arr
             [.str "Identify which fingers can stay in place during transitions",
              .str "Practice transitions slowly and gradually increase speed",
              .str "Use a metronome starting at 60 BPM",
              .str "Focus on accuracy over speed initially"]),
           ("practiceTime", .num 20),
           ("commonMistakes", .arr
             [.str "Lifting all fingers unnecessarily", .str "Rushing transitions",
              .str "Inconsistent timing"])],
         .obj
          [("step", .num 3), ("title", .str "Learn the Strumming Pattern"),
           ("description", .str "Master the strumming pattern that complements this song\x27s rhythm and feel."),
           ("chords", .arr [uniqueChords.getD 0 .undefined]),
           ("techniques", .arr
             [.str "Down strums", .str "Up strums", .str "Rhythm patterns", .str "Dynamics"]),
           ("tips", .arr
             [.str "Start with simple down strums on each beat",
              .str "Gradually add up strums for more complex patterns",
              .str "Keep your wrist relaxed and use arm movement",
              .str "Listen to the original recording for rhythm reference"]),
           ("practiceTime", .num 15),
           ("commonMistakes", .arr
             [.str "Tense wrist", .str "Inconsistent rhythm", .str "Too much force in strumming"])],
         .obj
          [("step", .num 4), ("title", .str "Combine Chords and Strumming"),
           ("description", .str "Put together chord changes with the strumming pattern, starting slowly."),
           ("chords", .arr uniqueChords),
           ("techniques", .arr [.str "Coordination", .str "Timing", .str "Muscle memory"]),
           ("tips", .arr
             [.str "Practice chord changes without strumming first",
              .str "Add simple strumming once chord changes are smooth",
              .str "Use a metronome to maintain steady timing",
              .str "Don\x27t rush - consistency is more important than speed"]),
           ("practiceTime", .num 25),
           ("commonMistakes", .arr
             [.str "Stopping rhythm during chord changes", .str "Speeding up or slowing down",
              .str "Inconsistent volume"])],
         .obj
          [("step", .num 5), ("title", .str "Play Song Sections"),
           ("description", .str "Learn to play through complete sections like verse and chorus."),
           ("chords", .arr uniqueChords),
           ("techniques", .arr
             [.str "Song structure", .str "Section transitions", .str "Performance"]),
           ("tips", .arr
             [.str "Practice each section separately before combining",
              .str "Pay attention to how sections flow together",
              .str "Practice transitions between verse and chorus",
              .str "Focus on maintaining the groove throughout"]),
           ("practiceTime", .num 20),
           ("commonMistakes", .arr
             [.str "Losing timing between sections", .str "Forgetting chord progressions",
              .str "Inconsistent dynamics"])],
         .obj
          [("step", .num 6), ("title", .str "Full Song Performance"),
           ("description", .str "Play the complete song from start to finish, focusing on musical expression."),
           ("chords", .arr uniqueChords),
           ("techniques", .arr [.str "Full performance", .str "Dynamics", .str "Expression"]),
           ("tips", .arr
             [.str "Start at a slower tempo and gradually increase",
              .str "Add dynamics - play some parts softer, others louder",
              .str "Focus on the emotional content of the lyrics",
              .str "Record yourself to identify areas for improvement"]),
           ("practiceTime", .num 30),
           ("commonMistakes", .arr
             [.str "Playing mechanically", .str "Ignoring song dynamics",
              .str "Not listening to the overall sound"])]]
      practiceNotes := .arr
        [.str "Practice for 15-20 minutes daily for best results",
         .str "Use a metronome to develop steady timing",
         .str "Record yourself playing to track progress and identify issues",
         .str "Try playing along with different versions of the song",
         .str "Take breaks if your fingers get tired or sore",
         .str "Focus on quality over quantity in your practice sessions"]
      playingTips := .obj
        [("strumming", .str "Focus on the down-up pattern and keep your wrist relaxed"),
         ("rhythm", .str "Count along with the beat: \x271-2-3-4\x27 to maintain timing"),
         ("transitions", .str "Practice chord changes slowly first, then gradually increase speed")]
      performanceTips := .arr
        [.str "Start with a simplified version if the full arrangement is too challenging",
         .str "Focus on playing with confidence rather than perfection",
         .str "Enjoy the process and have fun with the music",
         .str "Practice regularly but don\x27t overdo it - quality over quantity"] }

/-- Variant A's `analyzeChordsWithAzureAI` given the completion call's
outcome: normalize a truthy response; a falsy response throws
`"Invalid response from Azure OpenAI"`; every exception (call failure,
normalization `TypeError`, the throw) is caught and replaced by the
enhanced mock analysis, so this stage never raises. -/
def analyzeChordsWithAzureAI (s : SongInfo) (callResult : Except String JVal) :
    ChordAnalysisNorm :=
  match callResult with
  | .error _ => getEnhancedMockChordAnalysis s
  | .ok response =>
    if response.truthy then
      match normalizeChordAnalysis response with
      | .ok r => r
      | .error _ => getEnhancedMockChordAnalysis s
    else getEnhancedMockChordAnalysis s

/-- Variant A's `generateTutorialWithAzureAI` given the completion call's
outcome: normalize a truthy response; otherwise fall back to the enhanced
mock tutorial (whose own exception, thrown inside the `catch` block, would
propagate). -/
def generateTutorialWithAzureAI (s : SongInfo) (ca : ChordAnalysisNorm)
    (callResult : Except String JVal) : Except String TutorialNorm :=
  match callResult with
  | .error _ => getEnhancedMockTutorial s ca
  | .ok response =>
    if response.truthy then .ok (normalizeTutorial s ca response)
    else getEnhancedMockTutorial s ca

/-- Models `{ songInfo, ...chordAnalysis }`: the chord analysis together with the
selected song. -/
structure AnalysisWithSong where
  songInfo : SongInfo
  analysis : ChordAnalysisNorm

/-- The terminal artifact of `analyzeSongByName`. -/
structure FullAnalysisResult where
  analysis : AnalysisWithSong
  tutorial : TutorialNorm

/-- Variant A's `analyzeSongByName`, over one oracle per completion call
(the chord-analysis call and the tutorial call): the chord stage
(self-healing), then the tutorial stage consuming its result, with the outer
catch converting any escaping exception into the generic user-facing
error. -/
def analyzeSongByName (s : SongInfo) (chordOracle tutorialOracle : Nat → Except String JVal) :
    Except String FullAnalysisResult :=
  let ca := analyzeChordsWithAzureAI s (callAzureOpenAI chordOracle).2
  match generateTutorialWithAzureAI s ca (callAzureOpenAI tutorialOracle).2 with
  | .ok tut => .ok { analysis := { songInfo := s, analysis := ca }, tutorial := tut }
  | .error _ => .error "Failed to analyze the song. Please try again."

/-- The analysis part of an `analyzeSongByName` outcome. -/
def resultAnalysis : Except String FullAnalysisResult → Option AnalysisWithSong
  | .ok r => some r.analysis
  | .error _ => none

/-- The tutorial part of an `analyzeSongByName` outcome. -/
def resultTutorial : Except String FullAnalysisResult → Option TutorialNorm
  | .ok r => some r.tutorial
  | .error _ => none

/-- The value of a tutorial-stage outcome, `none` when it threw. -/
def exceptTutorial : Except String TutorialNorm → Option TutorialNorm
  | .ok t => some t
  | .error _ => none

/-- Did chord normalization succeed? -/
def chordNormOk (r : Except String ChordAnalysisNorm) : Bool :=
  match r with
  | .ok _ => true
  | .error _ => false

/-- The chord list of a successful chord normalization. -/
def chordNormChords : Except String ChordAnalysisNorm → Option (List NormChord)
  | .ok r => some r.chords
  | .error _ => none

/-- The candidate list of a search outcome (empty unless a list was
returned). -/
def outcomeSongs : SearchOutcome → List RawSongInfo
  | .value songs => songs
  | _ => []

/-- Unfolding lemma helper: the outcome of `callAzureOpenAI` when the first
attempt already succeeds. -/
theorem callAzureOpenAI_first_ok (oracle : Nat → Except String JVal) (j : JVal)
    (h : oracle 1 = .ok j) : (callAzureOpenAI oracle).2 = .ok j := by
  simp [callAzureOpenAI, callFrom, h]

/-- Unfolding lemma helper: the outcome of `callAzureOpenAI` when all three
attempts fail. -/
theorem callAzureOpenAI_all_fail (oracle : Nat → Except String JVal) (e1 e2 e3 : String)
    (h1 : oracle 1 = .error e1) (h2 : oracle 2 = .error e2) (h3 : oracle 3 = .error e3) :
    (callAzureOpenAI oracle).2 = .error e3 := by
  simp [callAzureOpenAI, callFrom, h1, h2, h3, lastErrorValue]

/-- Every progression the chord fallback can return carries the string
difficulty `"Beginner"`. -/
theorem mock_difficulty_str (s : SongInfo) :
    (getEnhancedMockChordAnalysis s).difficulty = JVal.str "Beginner" := by
  cases hp : strIncludes (jsToLowerCase s.title) "perfect" <;>
    cases hw : strIncludes (jsToLowerCase s.title) "wonderwall" <;>
      simp [getEnhancedMockChordAnalysis, hp, hw] <;> rfl

/-- The mock tutorial built on a chord-fallback analysis never throws. -/
theorem mock_tutorial_ok (s : SongInfo) :
    ∃ t, getEnhancedMockTutorial s (getEnhancedMockChordAnalysis s) = Except.ok t := by
  unfold getEnhancedMockTutorial
  rw [mock_difficulty_str]
  exact ⟨_, rfl⟩

/-- A defaulted-or-kept list equals the spec's empty-test formulation. -/
theorem if_length_pos_eq (l t : List RawSongInfo) :
    (if 0 < l.length then l else t) = (if l.isEmpty then t else l) := by
  cases l <;> simp

/-- The fallback shape never yields the empty list when the catalog's first
three entries are nonempty. -/
theorem fallback_ne_nil (catalog : List RawSongInfo) (p : RawSongInfo → Bool)
    (h3 : catalog.take 3 ≠ []) :
    (if 0 < (catalog.filter p).length then catalog.filter p else catalog.take 3) ≠ [] := by
  by_cases h : 0 < (catalog.filter p).length
  · rw [if_pos h]
    intro hnil
    rw [hnil] at h
    simp at h
  · rw [if_neg h]
    exact h3

/-- Every entry the fallback shape returns comes from the catalog, so a
property holding on the whole catalog holds on the result. -/
theorem all_nonempty_fallback (catalog : List RawSongInfo) (p : RawSongInfo → Bool)
    (h : catalog.all nonEmptyTitleArtist = true) :
    (if 0 < (catalog.filter p).length then catalog.filter p else catalog.take 3).all
      nonEmptyTitleArtist = true := by
  by_cases hc : 0 < (catalog.filter p).length
  · rw [if_pos hc, List.all_eq_true]
    intro x hx
    exact List.all_eq_true.mp h x ((List.filter_sublist catalog).subset hx)
  · rw [if_neg hc, List.all_eq_true]
    intro x hx
    exact List.all_eq_true.mp h x (List.take_subset _ _ hx)

/-- A chord item that is not `null`/`undefined` always normalizes. -/
theorem normalizeChordItem_ok (e : JVal) (h : e.isNullish = false) :
    ∃ c, normalizeChordItem e = Except.ok c := by
  cases e with
  | null => simp [JVal.isNullish] at h
  | undefined => simp [JVal.isNullish] at h
  | bool b => exact ⟨_, rfl⟩
  | num n => exact ⟨_, rfl⟩
  | str s => exact ⟨_, rfl⟩
  | arr xs => exact ⟨_, rfl⟩
  | obj fs => exact ⟨_, rfl⟩

/-- Mapping `normalizeChordItem` over an array of non-nullish elements
succeeds. -/
theorem mapM_chords_ok (xs : List JVal) (h : ∀ e ∈ xs, e.isNullish = false) :
    ∃ l, xs.mapM normalizeChordItem = Except.ok l := by
  induction xs with
  | nil => exact ⟨[], rfl⟩
  | cons a as ih =>
    obtain ⟨c, hc⟩ := normalizeChordItem_ok a (h a (by simp))
    obtain ⟨l, hl⟩ := ih (fun e he => h e (by simp [he]))
    exact ⟨c :: l, by rw [List.mapM_cons, hc, hl]; rfl⟩

/-- Reduction of a monadic bind on a successful `Except` value (used to
reduce the do-notation chains of the normalizers). -/
theorem exceptPure_bind {α β : Type} (a : α) (f : α → Except String β) :
    Bind.bind (Except.ok a) f = f a := rfl

/-- C1: `callAzureOpenAI` with every attempt failing makes exactly 3
attempts, waits 1000 ms after the first failure and 2000 ms after the second,
does not wait after the final attempt, and throws the last encountered
error. -/
theorem c1_retry_backoff (oracle : Nat → Except String JVal) (e1 e2 e3 : String)
    (h1 : oracle 1 = .error e1) (h2 : oracle 2 = .error e2) (h3 : oracle 3 = .error e3) :
    callAzureOpenAI oracle =
      ([.fetchAttempt 1, .warnAttempt 1, .wait 1000,
        .fetchAttempt 2, .warnAttempt 2, .wait 2000,
        .fetchAttempt 3, .warnAttempt 3], .error e3) := by
  simp [callAzureOpenAI, callFrom, h1, h2, h3, lastErrorValue]

/-- Witness for C1 at a concrete always-failing oracle. -/
theorem c1_retry_backoff_witness :
    callAzureOpenAI (fun n => .error ("fail " ++ toString n)) =
      ([.fetchAttempt 1, .warnAttempt 1, .wait 1000,
        .fetchAttempt 2, .warnAttempt 2, .wait 2000,
        .fetchAttempt 3, .warnAttempt 3], .error "fail 3") :=
  c1_retry_backoff (fun n => .error ("fail " ++ toString n)) "fail 1" "fail 2" "fail 3"
    rfl rfl rfl

/-- C2 counterexample: with the chord call failing on all attempts and the
tutorial call succeeding with the valid JSON value `null` (a falsy value),
the resulting tutorial IS the tutorial fallback, contradicting the claim
that a successful tutorial completion yields the model-returned tutorial. -/
theorem c2_counterexample :
    resultTutorial (analyzeSongByName { title := "Let It Be", artist := "The Beatles" }
        (fun _ => Except.error "boom") (fun _ => Except.ok JVal.null)) =
      exceptTutorial (getEnhancedMockTutorial { title := "Let It Be", artist := "The Beatles" }
        (getEnhancedMockChordAnalysis { title := "Let It Be", artist := "The Beatles" }))
    ∧ (resultTutorial (analyzeSongByName { title := "Let It Be", artist := "The Beatles" }
        (fun _ => Except.error "boom") (fun _ => Except.ok JVal.null))).isSome = true :=
  ⟨rfl, rfl⟩

/-- C2 (amended): when the chord-analysis completion call fails on all 3
attempts, the analysis equals the deterministic chord fallback for the song
title; and when additionally the tutorial completion call succeeds with a
truthy JSON value, the tutorial is the normalization of the model-returned
tutorial (not the tutorial fallback). -/
theorem c2_amended :
    (∀ (s : SongInfo) (co tu : Nat → Except String JVal) (e1 e2 e3 : String) (j : JVal),
      co 1 = Except.error e1 → co 2 = Except.error e2 → co 3 = Except.error e3 →
      tu 1 = Except.ok j → j.truthy = true →
      analyzeSongByName s co tu =
        Except.ok
          { analysis := { songInfo := s, analysis := getEnhancedMockChordAnalysis s },
            tutorial := normalizeTutorial s (getEnhancedMockChordAnalysis s) j })
    ∧ (∀ (s : SongInfo) (co tu : Nat → Except String JVal) (e1 e2 e3 : String) (j : JVal),
      co 1 = Except.error e1 → co 2 = Except.error e2 → co 3 = Except.error e3 →
      tu 1 = Except.ok j →
      resultAnalysis (analyzeSongByName s co tu) =
        some { songInfo := s, analysis := getEnhancedMockChordAnalysis s }) := by
  constructor
  · intro s co tu e1 e2 e3 j h1 h2 h3 ht hj
    simp [analyzeSongByName, analyzeChordsWithAzureAI, generateTutorialWithAzureAI,
      callAzureOpenAI_all_fail co e1 e2 e3 h1 h2 h3, callAzureOpenAI_first_ok tu j ht, hj]
  · intro s co tu e1 e2 e3 j h1 h2 h3 ht
    obtain ⟨t, htut⟩ := mock_tutorial_ok s
    by_cases hj : j.truthy = true
    · simp [analyzeSongByName, analyzeChordsWithAzureAI, generateTutorialWithAzureAI,
        callAzureOpenAI_all_fail co e1 e2 e3 h1 h2 h3, callAzureOpenAI_first_ok tu j ht,
        hj, resultAnalysis]
    · have hj2 : j.truthy = false := by simpa using hj
      simp [analyzeSongByName, analyzeChordsWithAzureAI, generateTutorialWithAzureAI,
        callAzureOpenAI_all_fail co e1 e2 e3 h1 h2 h3, callAzureOpenAI_first_ok tu j ht,
        hj2, htut, resultAnalysis]

/-- Witness for C2 (amended) at a concrete song, failing chord oracle and a
truthy tutorial response. -/
theorem c2_amended_witness :
    analyzeSongByName { title := "Hey Jude", artist := "The Beatles" }
      (fun _ => Except.error "boom")
      (fun _ => Except.ok (JVal.obj [("overview", JVal.str "A model tutorial")])) =
      Except.ok
        { analysis :=
            { songInfo := { title := "Hey Jude", artist := "The Beatles" },
              analysis := getEnhancedMockChordAnalysis
                { title := "Hey Jude", artist := "The Beatles" } },
          tutorial := normalizeTutorial { title := "Hey Jude", artist := "The Beatles" }
            (getEnhancedMockChordAnalysis { title := "Hey Jude", artist := "The Beatles" })
            (JVal.obj [("overview", JVal.str "A model tutorial")]) } :=
  c2_amended.1 { title := "Hey Jude", artist := "The Beatles" }
    (fun _ => Except.error "boom")
    (fun _ => Except.ok (JVal.obj [("overview", JVal.str "A model tutorial")]))
    "boom" "boom" "boom" (JVal.obj [("overview", JVal.str "A model tutorial")])
    rfl rfl rfl rfl rfl

/-- C3 counterexample: a parsed JSON object whose `chords` field is the
truthy non-array `5` makes the chord normalization throw a `TypeError`
(instead of normalizing `chords` to an empty sequence, and contradicting
"normalization never raises"). -/
theorem c3_counterexample :
    normalizeChordAnalysis (JVal.obj [("chords", JVal.num 5)]) =
      Except.error "TypeError: chords.map is not a function"
    ∧ chordNormChords (normalizeChordAnalysis (JVal.obj [("chords", JVal.num 5)])) ≠ some [] :=
  ⟨rfl, fun h => Option.noConfusion h⟩

/-- C3 (amended): an empty chord item normalizes to the documented defaults;
an absent or falsy top-level `chords` field normalizes to the empty
sequence; and normalization succeeds on every object whose `chords` field is
an array of non-nullish items — but a truthy non-array `chords` field (or a
nullish array element) makes it throw, the error being caught by the calling
stage's fallback. -/
theorem c3_amended :
    (normalizeChordItem (JVal.obj []) = Except.ok
      { time := JVal.num 0, chord := JVal.str "C", duration := JVal.num 4,
        lyricLine := JVal.str "", sectionName := JVal.str "verse" })
    ∧ (∀ fs : List (String × JVal), (lookupLast fs "chords").truthy = false →
      chordNormChords (normalizeChordAnalysis (JVal.obj fs)) = some [])
    ∧ (∀ (fs : List (String × JVal)) (xs : List JVal),
      lookupLast fs "chords" = JVal.arr xs →
      (∀ e ∈ xs, e.isNullish = false) →
      chordNormOk (normalizeChordAnalysis (JVal.obj fs)) = true) := by
  refine ⟨rfl, fun fs hf => ?_, fun fs xs hx hnn => ?_⟩
  · simp [normalizeChordAnalysis, getProp, exceptPure_bind, jsOr, hf, jsMapChords,
      List.mapM.loop, chordNormChords]
  · obtain ⟨l, hl⟩ := mapM_chords_ok xs hnn
    have hl2 : List.mapM.loop normalizeChordItem xs [] = Except.ok l := hl
    simp [normalizeChordAnalysis, getProp, exceptPure_bind, jsOr, hx, JVal.truthy,
      jsMapChords, hl, hl2, chordNormOk]

/-- Witness for C3 (amended): an object with no `chords` field normalizes
with an empty chord sequence. -/
theorem c3_amended_witness :
    chordNormChords (normalizeChordAnalysis (JVal.obj [])) = some [] :=
  c3_amended.2.1 [] rfl

/-- C4: variant A's `searchSongs` maps every exception escaping its body to
an error log plus the fallback result, and never resolves by raising. -/
theorem c4_search_never_raises (query : String) (apiKey : Option String)
    (oracle : Nat → Except String JVal) :
    (∀ e, (searchSongsBodyA apiKey oracle).2 = Except.error e →
      searchSongsA query apiKey oracle =
        ((searchSongsBodyA apiKey oracle).1 ++ [Event.errorLog],
          SearchOutcome.value (getMockSongSearchResultsA query)))
    ∧ ∀ e, (searchSongsA query apiKey oracle).2 ≠ SearchOutcome.thrown e := by
  constructor
  · intro e he
    simp [searchSongsA, he]
  · intro e
    unfold searchSongsA
    cases h : (searchSongsBodyA apiKey oracle).2 with
    | error err => simp
    | ok v =>
      cases v with
      | none => simp
      | some songs => simp

/-- Witness for C4 at a concrete query and an always-failing transport. -/
theorem c4_search_never_raises_witness :
    searchSongsA "hello" (some "a-real-key") (fun _ => Except.error "network down") =
      ((searchSongsBodyA (some "a-real-key") (fun _ => Except.error "network down")).1 ++
          [Event.errorLog],
        SearchOutcome.value (getMockSongSearchResultsA "hello")) :=
  (c4_search_never_raises "hello" (some "a-real-key")
    (fun _ => Except.error "network down")).1 "network down" rfl

/-- C5 counterexample: in variant A, a placeholder API key does NOT
short-circuit — the network call is still attempted (a fetch event is
recorded) and four warnings are logged (the configuration warning plus three
per-attempt warnings), not one. -/
theorem c5_counterexample :
    ((searchSongsA "q" (some "YOUR_AZURE_OPENAI_API_KEY")
        (fun _ => Except.error "fetch failed")).1.contains (Event.fetchAttempt 1) = true)
    ∧ (((searchSongsA "q" (some "YOUR_AZURE_OPENAI_API_KEY")
        (fun _ => Except.error "fetch failed")).1.filter Event.isWarning).length = 4) :=
  ⟨rfl, rfl⟩

/-- C5 (amended): in variant B, an unconfigured (placeholder) API key is
detected and short-circuits immediately to the fallback data: the result is
the mock search list, exactly one warning is logged, and no network attempt
occurs (the event list is exactly the single configuration warning). -/
theorem c5_amended_short_circuit (query : String) (apiKey : Option String)
    (oracle : Nat → Except String JVal) (h : notConfigured apiKey = true) :
    searchSongsB query apiKey oracle =
      ([Event.warnConfig], SearchOutcome.value (getMockSongSearchResultsB query)) := by
  simp [searchSongsB, h]

/-- Witness for C5 (amended) with the key unset. -/
theorem c5_amended_short_circuit_witness :
    searchSongsB "wonderwall" none (fun _ => Except.error "unreachable") =
      ([Event.warnConfig], SearchOutcome.value (getMockSongSearchResultsB "wonderwall")) :=
  c5_amended_short_circuit "wonderwall" none (fun _ => Except.error "unreachable") rfl

/-- C6 counterexample: variant B's search fallback does not filter by genre:
for the query "rock" it returns its first 3 catalog entries (no title/artist
match), while the spec's title/artist/genre rule would select the Wonderwall
entry by its "Rock" genre. -/
theorem c6_counterexample :
    getMockSongSearchResultsB "rock" ≠ specSearchFallback mockSongsB "rock" :=
  fun h => absurd (congrArg List.length h) (by decide)

/-- C6 (amended): variant A's fallback is exactly the spec's
title/artist/genre filter with first-3 default; both variants never return
an empty list; and the no-match query "zzz-no-match-xyz" returns exactly 3
candidates in both variants. -/
theorem c6_amended :
    (∀ q, getMockSongSearchResultsA q = specSearchFallback mockSongsA q)
    ∧ (∀ q, getMockSongSearchResultsA q ≠ [] ∧ getMockSongSearchResultsB q ≠ [])
    ∧ (getMockSongSearchResultsA "zzz-no-match-xyz").length = 3
    ∧ (getMockSongSearchResultsB "zzz-no-match-xyz").length = 3 := by
  refine ⟨fun q => ?_, fun q => ⟨?_, ?_⟩, rfl, rfl⟩
  · exact if_length_pos_eq _ _
  · exact fallback_ne_nil mockSongsA _ (by simp [mockSongsA])
  · exact fallback_ne_nil mockSongsB _ (by simp [mockSongsB])

/-- C7: the chord fallback is a pure function of the song title (equal
titles give equal results); a title containing "perfect" case-insensitively
gets the bespoke Perfect progression; one containing "wonderwall" (and not
"perfect") gets the Wonderwall progression; any other title gets the generic
default progression, whose key is "C Major". -/
theorem c7_chord_fallback :
    (∀ s1 s2 : SongInfo, s1.title = s2.title →
      getEnhancedMockChordAnalysis s1 = getEnhancedMockChordAnalysis s2)
    ∧ (∀ s : SongInfo, strIncludes (jsToLowerCase s.title) "perfect" = true →
      getEnhancedMockChordAnalysis s = perfectProgression)
    ∧ (∀ s : SongInfo, strIncludes (jsToLowerCase s.title) "perfect" = false →
      strIncludes (jsToLowerCase s.title) "wonderwall" = true →
      getEnhancedMockChordAnalysis s = wonderwallProgression)
    ∧ (∀ s : SongInfo, strIncludes (jsToLowerCase s.title) "perfect" = false →
      strIncludes (jsToLowerCase s.title) "wonderwall" = false →
      getEnhancedMockChordAnalysis s = defaultProgression)
    ∧ defaultProgression.key = JVal.str "C Major" := by
  refine ⟨fun s1 s2 h => ?_, fun s h => ?_, fun s h1 h2 => ?_, fun s h1 h2 => ?_, rfl⟩
  · simp [getEnhancedMockChordAnalysis, h]
  · simp [getEnhancedMockChordAnalysis, h]
  · simp [getEnhancedMockChordAnalysis, h1, h2]
  · simp [getEnhancedMockChordAnalysis, h1, h2]

/-- Witness for C7 at a concrete title containing "Wonderwall". -/
theorem c7_chord_fallback_witness :
    getEnhancedMockChordAnalysis { title := "Wonderwall (Remastered)", artist := "Oasis" } =
      wonderwallProgression :=
  c7_chord_fallback.2.2.1 { title := "Wonderwall (Remastered)", artist := "Oasis" } rfl rfl

/-- C8 counterexample: a search item with the present, negative duration -5
yields a candidate whose duration is -5, not the 180 the claim's
"absent or non-positive" rule demands. -/
theorem c8_counterexample :
    resultDuration (normalizeSearchItem (JVal.obj
      [("title", JVal.str "X"), ("artist", JVal.str "Y"), ("duration", JVal.num (-5))])) =
      some (JVal.num (-5))
    ∧ specDurationRule (JVal.num (-5)) = JVal.num 180
    ∧ JVal.num (-5) ≠ JVal.num 180 := by
  refine ⟨rfl, rfl, fun h => ?_⟩
  injection h with h2
  exact absurd h2 (by decide)

/-- C8 (amended): a present positive duration is kept; an absent or
otherwise falsy duration (including 0) defaults to 180; but a present
negative duration is passed through unchanged. -/
theorem c8_amended_duration (fs : List (String × JVal)) :
    (∀ d : Int, lookupLast fs "duration" = JVal.num d → 0 < d →
      resultDuration (normalizeSearchItem (JVal.obj fs)) = some (JVal.num d))
    ∧ ((lookupLast fs "duration").truthy = false →
      resultDuration (normalizeSearchItem (JVal.obj fs)) = some (JVal.num 180))
    ∧ (∀ d : Int, lookupLast fs "duration" = JVal.num d → d < 0 →
      resultDuration (normalizeSearchItem (JVal.obj fs)) = some (JVal.num d)) := by
  refine ⟨fun d hd hpos => ?_, fun hf => ?_, fun d hd hneg => ?_⟩
  · have ht : (JVal.num d).truthy = true := by simp [JVal.truthy]; omega
    simp [normalizeSearchItem, getProp, exceptPure_bind, resultDuration, hd, jsOr, ht]
  · simp [normalizeSearchItem, getProp, exceptPure_bind, resultDuration, jsOr, hf]
  · have ht : (JVal.num d).truthy = true := by simp [JVal.truthy]; omega
    simp [normalizeSearchItem, getProp, exceptPure_bind, resultDuration, hd, jsOr, ht]

/-- Witness for C8 (amended) at a concrete item with duration 263. -/
theorem c8_amended_duration_witness :
    resultDuration (normalizeSearchItem (JVal.obj
      [("title", JVal.str "Perfect"), ("artist", JVal.str "Ed Sheeran"),
       ("duration", JVal.num 263)])) = some (JVal.num 263) :=
  (c8_amended_duration
    [("title", JVal.str "Perfect"), ("artist", JVal.str "Ed Sheeran"),
     ("duration", JVal.num 263)]).1 263 rfl (by decide)

/-- C9 counterexample: the model path copies title and artist without
validation, so a successful search can deliver a candidate with no title or
artist at all (the empty item `{}`). -/
theorem c9_counterexample :
    (outcomeSongs (searchSongsA "any" (some "a-real-key")
        (fun _ => Except.ok (JVal.arr [JVal.obj []]))).2).all nonEmptyTitleArtist = false :=
  rfl

/-- C9 (amended): every candidate produced by the fallback path (either
variant's catalog filter) has a non-empty string title and artist; the model
path offers no such guarantee. -/
theorem c9_amended (q : String) :
    ((getMockSongSearchResultsA q).all nonEmptyTitleArtist = true)
    ∧ ((getMockSongSearchResultsB q).all nonEmptyTitleArtist = true) := by
  constructor
  · exact all_nonempty_fallback mockSongsA _ (by decide)
  · exact all_nonempty_fallback mockSongsB _ (by decide)

/-- C10: when the completion call succeeds with valid JSON that is not an
array, variant A's `searchSongs` exits without returning and without
raising: it resolves with no value at all (`undefined`). -/
theorem c10_undefined_result :
    (searchSongsA "best songs" (some "a-real-key")
        (fun _ => Except.ok (JVal.obj [("message", JVal.str "no songs")]))).2 =
      SearchOutcome.undefinedResult :=
  rfl

/-- Witness for C9 (amended) at a concrete query. -/
theorem c9_amended_witness :
    ((getMockSongSearchResultsA "no-such-song").all nonEmptyTitleArtist = true)
    ∧ ((getMockSongSearchResultsB "no-such-song").all nonEmptyTitleArtist = true) :=
  c9_amended "no-such-song"
